import Mathlib

/-!
Verification development for the FusionGPT add-in (a chat panel for a CAD
application that forwards user requests to an LLM, extracts fenced code from
the reply, and executes it).  Strings are modelled as `List Char`; the Python
operations `in`, `split(sep, 1)`, `strip()`, `lower()` and `startswith` are
given explicit executable counterparts below, and each Python function of the
repository is translated into a Lean definition of the same name.
Fallible or external steps (the LLM provider call, the dynamic module load)
are modelled as explicit parameters; file-system effects are modelled as an
explicit flag for the lifetime of the temporary code file.
-/

/-- Convert a string literal to the `List Char` representation used throughout. -/
def sl (s : String) : List Char := s.toList

/-- First occurrence of `sep` in `s`: returns the part before and the part
after the leftmost occurrence, mirroring the Python idiom
`s.split(sep, 1)` when `sep in s`.  Returns `none` when `sep` does not occur. -/
def findSep (sep : List Char) : List Char → Option (List Char × List Char)
  | [] => if sep.isPrefixOf ([] : List Char) then some ([], []) else none
  | c :: rest =>
    if sep.isPrefixOf (c :: rest) then some ([], (c :: rest).drop sep.length)
    else
      match findSep sep rest with
      | some (pre, post) => some (c :: pre, post)
      | none => none

/-- Python `sep in s` (for the nonempty separators used by the repository). -/
def containsSub (sep s : List Char) : Bool := (findSep sep s).isSome

/-- Python `s.split(sep, 1)[0]`: the part before the first occurrence of
`sep`, or the whole of `s` when `sep` does not occur. -/
def splitFst (sep s : List Char) : List Char :=
  match findSep sep s with
  | some (pre, _) => pre
  | none => s

/-- `occursBefore sep s n = true` iff some occurrence of `sep` starts at an
index `< n` in `s`. -/
def occursBefore (sep : List Char) : List Char → Nat → Bool
  | _, 0 => false
  | s, n + 1 => sep.isPrefixOf s || occursBefore sep s.tail n

/-- The whitespace set of Python `str.strip()` (ASCII part). -/
def pyIsSpace (c : Char) : Bool :=
  c = ' ' || c = '\t' || c = '\n' || c = '\r' || c = '\x0B' || c = '\x0C'

/-- Python `s.strip()`. -/
def pyStrip (s : List Char) : List Char :=
  (((s.dropWhile pyIsSpace).reverse).dropWhile pyIsSpace).reverse

/-- Python `s.lower()` (ASCII case folding). -/
def pyLower (s : List Char) : List Char := s.map Char.toLower

/-- Python truthiness of an optional string (`None` and `""` are falsy). -/
def pyTruthy (o : Option (List Char)) : Bool := !(o.getD []).isEmpty

/-- The language-tagged fence marker of the extractor. -/
def sepPy : List Char := sl "```python"

/-- The bare fence marker. -/
def sepTick : List Char := sl "```"

namespace FusionGPT

/-- The explicit replacement table of `remove_unicode_chars`
(src/commands/fusionGPT/code_executor.py): common Unicode characters and
their ASCII renderings, applied by `str.replace` in order. -/
def unicodeReplacements : List (Char × List Char) := [
  ('≈', sl "~="),
  ('≤', sl "<="),
  ('≥', sl ">="),
  ('°', sl " degrees"),
  ('π', sl "pi"),
  ('•', sl "*"),
  ('–', sl "-"),
  ('—', sl "--"),
  ('‘', sl "\x27"),
  ('’', sl "\x27"),
  ('“', sl "\""),
  ('”', sl "\""),
  ('×', sl "*"),
  ('÷', sl "/"),
  ('−', sl "-")]

/-- Python `code.replace(c, r)` where the pattern is a single character. -/
def replaceChar (c : Char) (r : List Char) (s : List Char) : List Char :=
  s.foldr (fun ch acc => if ch = c then r ++ acc else ch :: acc) []

/-- The first phase of `remove_unicode_chars`: the fifteen `str.replace`
calls applied in order. -/
def applyReplacements (s : List Char) : List Char :=
  unicodeReplacements.foldl (fun acc p => replaceChar p.1 p.2 acc) s

/-- One lowercase hexadecimal digit, as produced by Python `hex`. -/
def hexDigit (n : Nat) : Char := (sl "0123456789abcdef").getD n '*'

/-- The digit string of Python `hex(n)` (without the 0x mark). -/
def hexChars (n : Nat) : List Char :=
  if _h : n < 16 then [hexDigit n]
  else hexChars (n / 16) ++ [hexDigit (n % 16)]
decreasing_by exact Nat.div_lt_self (by omega) (by omega)

/-- Python `hex(n)`. -/
def pyHex (n : Nat) : List Char := '0' :: 'x' :: hexChars n

/-- The ASCII comment substituted for a stray non-ASCII character by the
second phase of `remove_unicode_chars`. -/
def unicodeComment (c : Char) : List Char :=
  sl " /* Unicode character " ++ pyHex c.toNat ++ sl " removed */ "

/-- The second phase of `remove_unicode_chars`: characters in the ASCII
range are kept, any other character is replaced by an ASCII comment. -/
def asciiPass (s : List Char) : List Char :=
  s.foldr (fun ch acc => (if ch.toNat < 128 then [ch] else unicodeComment ch) ++ acc) []

/-- `remove_unicode_chars` of src/commands/fusionGPT/code_executor.py. -/
def remove_unicode_chars (code : List Char) : List Char :=
  asciiPass (applyReplacements code)

/-- The generic-fence fallback branch of `extract_code` (the `elif` of
src/commands/fusionGPT/code_executor.py): split at the first bare fence,
then take the text up to the next fence (or to the end when none follows). -/
def extract_code_bare (message : List Char) : Option (List Char) :=
  match findSep sepTick message with
  | some (_, rest) => some (remove_unicode_chars (pyStrip (splitFst sepTick rest)))
  | none => none

/-- `extract_code` of src/commands/fusionGPT/code_executor.py: prefer a
`\x60\x60\x60python` fence with a closing fence after it; otherwise fall
through to the bare-fence branch; `none` when no fence marker occurs. -/
def extract_code (message : List Char) : Option (List Char) :=
  match findSep sepPy message with
  | some (_, rest) =>
    match findSep sepTick rest with
    | some (inner, _) => some (remove_unicode_chars (pyStrip inner))
    | none => extract_code_bare message
  | none => extract_code_bare message

end FusionGPT

namespace PaletteShow

/-- The generic-fence fallback branch of `extract_code`
(src/commands/paletteShow/code_executor.py). -/
def extract_code_bare (message : List Char) : Option (List Char) :=
  match findSep sepTick message with
  | some (_, rest) => some (pyStrip (splitFst sepTick rest))
  | none => none

/-- `extract_code` of src/commands/paletteShow/code_executor.py: same fence
search as the fusionGPT variant but without the Unicode cleaning. -/
def extract_code (message : List Char) : Option (List Char) :=
  match findSep sepPy message with
  | some (_, rest) =>
    match findSep sepTick rest with
    | some (inner, _) => some (pyStrip inner)
    | none => extract_code_bare message
  | none => extract_code_bare message

end PaletteShow

/-- A caught Python exception: `str(e)` and `traceback.format_exc()`. -/
structure PyExn where
  msg : List Char
  trace : List Char
deriving DecidableEq

/-- A reply from the model provider: its list of text content blocks. -/
structure ProviderReply where
  content : List (List Char)
deriving DecidableEq

namespace FusionGPT

/-- The write-code intent keywords of `process_message`
(src/commands/fusionGPT/llm_client.py line 83). -/
def intent_keywords : List (List Char) :=
  [sl "create", sl "make", sl "generate", sl "model", sl "build", sl "design"]

/-- Whether the user message carries one of the intent keywords
(checked against the lowercased message). -/
def has_intent_keyword (message : List Char) : Bool :=
  intent_keywords.any (fun k => containsSub k (pyLower message))

/-- The part of the code-generation rewrite template before the message. -/
def codeRewriteHead : List Char :=
  sl "\nCreate reliable Fusion API Python code that will accomplish this task:\n\n"

/-- The part of the code-generation rewrite template after the message. -/
def codeRewriteTail : List Char :=
  sl "\n\nIMPORTANT:\n1. Your code must be COMPLETE and EXECUTABLE\n2. Include VALIDATION CHECKS before each geometry operation\n3. Use DEFENSIVE CODING to prevent common errors\n4. For revolve operations, ensure the axis is NOT tangent to the profile\n5. For extrudes, ensure profiles are valid and closed\n6. Add helpful comments explaining your approach\n7. If the request is complex, simplify the approach\n\nThe code WILL be directly executed in Fusion, so it needs to be robust against API errors.\n\nPLEASE MAKE SURE YOU ARE USING THE CORRECT CODE FROM THE FUSION WEBSITE: https://help.autodesk.com/view/fusion360/ENU/\n"

/-- The message-enhancement step of `process_message`
(src/commands/fusionGPT/llm_client.py lines 83-103): the message is wrapped
in the code-generation template when it contains an intent keyword, and is
passed through unchanged otherwise. -/
def enhanced_message (message : List Char) : List Char :=
  if has_intent_keyword message then codeRewriteHead ++ message ++ codeRewriteTail
  else message

/-- The constant standing for the Python IndexError raised by
`response.content[0]` when the content list is empty (modelling constant for
the exception object; it is caught by the same handler as an API error). -/
def indexErrorExn : PyExn :=
  ⟨sl "list index out of range", sl "IndexError: list index out of range"⟩

/-- The wrapped error string of the inner `except` of `process_message`:
`Error communicating with Claude: API Error: str(e)\ntraceback`. -/
def apiErrorText (e : PyExn) : List Char :=
  sl "Error communicating with Claude: API Error: " ++ e.msg ++ sl "\n" ++ e.trace

/-- `process_message` of src/commands/fusionGPT/llm_client.py.  The provider
call is modelled as a function from the sent message to either a reply or a
raised exception; the function returns the first text block on success and a
wrapped error string on any caught exception, and is total (never raises). -/
def process_message (message : List Char)
    (client : List Char → Except PyExn ProviderReply) : List Char :=
  match client (enhanced_message message) with
  | .error e => apiErrorText e
  | .ok reply =>
    match reply.content with
    | [] => apiErrorText indexErrorExn
    | t :: _ => t

end FusionGPT

namespace PaletteShow

/-- `process_message` of src/commands/paletteShow/llm_client.py: no message
enhancement, and the caught-error string carries only `str(e)`. -/
def process_message (message : List Char)
    (client : List Char → Except PyExn ProviderReply) : List Char :=
  match client message with
  | .error e => sl "Error communicating with Claude: " ++ e.msg
  | .ok reply =>
    match reply.content with
    | [] => sl "Error communicating with Claude: " ++ (FusionGPT.indexErrorExn).msg
    | t :: _ => t

end PaletteShow

/-- The outcome of dynamically loading and invoking the generated module
(the external effect of `importlib` + `run(None)` in `execute_code`):
the load itself may raise, else the module either has a `run` function
(which returns an optional result payload or raises) or is executed
directly by the fallback path. -/
inductive ModuleBehavior where
  | loadError (e : PyExn)
  | runFn (r : Except PyExn (Option (List Char)))
  | noRunFn (r : Except PyExn Unit)

namespace FusionGPT

/-- A regex word character (ASCII part of Python re \w). -/
def isWordChar (c : Char) : Bool :=
  ('a' ≤ c && c ≤ 'z') || ('A' ≤ c && c ≤ 'Z') || ('0' ≤ c && c ≤ '9') || c = '_'

/-- The literal head of the `ValueInput.create\w+(...)` pattern. -/
def viHeader : List Char := sl "ValueInput.create"

/-- Attempt to match the regex `ValueInput\.create\w+\(([^)]+)\)` at the
start of `s`; on success returns (whole match, captured group, remainder). -/
def matchVIAt (s : List Char) : Option (List Char × List Char × List Char) :=
  if viHeader.isPrefixOf s then
    let s1 := s.drop viHeader.length
    let w := s1.takeWhile isWordChar
    let s2 := s1.dropWhile isWordChar
    if w.isEmpty then none
    else
      match s2 with
      | '(' :: s3 =>
        let v := s3.takeWhile (fun c => c ≠ ')')
        let s4 := s3.dropWhile (fun c => c ≠ ')')
        if v.isEmpty then none
        else
          match s4 with
          | ')' :: rest => some (viHeader ++ w ++ '(' :: v ++ [')'], v, rest)
          | _ => none
      | _ => none
  else none

/-- `re.finditer` over the `ValueInput` pattern: scan left to right,
emitting non-overlapping matches (whole match, captured group) and
resuming after each match.  The fuel starts at `length + 1` and every step
consumes at least one character, so the scan is exact. -/
def viScanAux : Nat → List Char → List (List Char × List Char)
  | 0, _ => []
  | fuel + 1, s =>
    match matchVIAt s with
    | some (g, v, rest) => (g, v) :: viScanAux fuel rest
    | none =>
      match s with
      | [] => []
      | _ :: t => viScanAux fuel t

/-- All matches of the `ValueInput` pattern in `code`. -/
def viScan (code : List Char) : List (List Char × List Char) :=
  viScanAux (code.length + 1) code

/-- Python `repr` of the list of matched characters, as interpolated into
the non-ASCII warning message. -/
def pyReprCharList (cs : List Char) : List Char :=
  sl "[" ++ List.intercalate (sl ", ")
    (cs.map (fun c => sl "\x27" ++ [c] ++ sl "\x27")) ++ sl "]"

/-- The issue list produced by `validate_code`
(src/commands/fusionGPT/code_executor.py lines 24-77), with the checks in
source order. -/
def validation_issues (code : List Char) : List (List Char) :=
  let lower := pyLower code
  (if containsSub (sl "def run(context)") code then []
   else [sl "Missing run(context) function definition"])
  ++ (if containsSub (sl "try:") code && containsSub (sl "except") code then []
      else [sl "Missing proper error handling (try/except blocks)"])
  ++ (if containsSub (sl "app = adsk.core.Application.get()") code then []
      else [sl "Missing core initialization: app = adsk.core.Application.get()"])
  ++ (if containsSub (sl "ui = app.userInterface") code then []
      else [sl "Missing core initialization: ui = app.userInterface"])
  ++ (let uni := code.filter (fun c => 128 ≤ c.toNat)
      if uni.isEmpty then []
      else [sl "WARNING: Code contains non-ASCII characters that may cause encoding issues: "
            ++ pyReprCharList uni])
  ++ (if containsSub (sl "revolve") lower || containsSub (sl "revolvefeatures") lower then
        if !(([sl "check", sl "validate", sl "ensure", sl "verify", sl "confirm",
              sl "test"]).any (fun k => containsSub k lower))
            && containsSub (sl "axis") lower then
          [sl "WARNING: Revolve operation without explicit axis validation"]
        else []
      else [])
  ++ (if containsSub (sl "extrude") lower || containsSub (sl "extrudefeatures") lower then
        if !(([sl "check", sl "validate", sl "ensure", sl "verify", sl "profiles",
              sl "isValid"]).any (fun k => containsSub k lower)) then
          [sl "WARNING: Extrude operation without profile validation"]
        else []
      else [])
  ++ ((viScan code).foldr (fun p acc =>
        (if containsSub (sl "createByReal") p.1
            && (containsSub (sl "\"") (pyStrip p.2) || containsSub (sl "\x27") (pyStrip p.2)) then
          [sl "WARNING: Using createByReal with string values - use createByString for units"]
        else []) ++ acc) [])
  ++ (if containsSub (sl "def ") code && containsSub (sl "handler") lower then
        if !(containsSub (sl "global ") code) && !(containsSub (sl "nonlocal ") code) then
          [sl "WARNING: Event handlers defined without proper variable scoping (global/nonlocal)"]
        else []
      else [])

/-- `validate_code` of src/commands/fusionGPT/code_executor.py: the issue
list plus the validity flag `len(issues)==0 or all("WARNING" in issue)`. -/
def validate_code (code : List Char) : Bool × List (List Char) :=
  let issues := validation_issues code
  (issues.isEmpty || issues.all (fun i => containsSub (sl "WARNING") i), issues)

/-- The `VALIDATION FAILED` result string of `execute_code`
(lines 101 and 107 of src/commands/fusionGPT/code_executor.py). -/
def validation_failed_message (issues : List (List Char)) : List Char :=
  sl "VALIDATION FAILED: Code validation found the following issues:\n- "
  ++ List.intercalate (sl "\n- ") issues
  ++ sl "\n\nExecution aborted."

/-- The canned remediation hint for a failed revolve with a tangent axis. -/
def suggRevolve : List Char :=
  sl "\n\nSUGGESTION: The revolve operation failed because the axis is tangent to or intersects the profile. Try adjusting the axis location or the profile geometry."

/-- The canned remediation hint for a failed extrude with an invalid profile. -/
def suggExtrude : List Char :=
  sl "\n\nSUGGESTION: The extrude operation failed, likely due to an invalid profile. Check that the sketch contains closed profiles and that the correct profile is selected."

/-- The canned remediation hint for a failed boolean operation. -/
def suggBoolean : List Char :=
  sl "\n\nSUGGESTION: The boolean operation failed. Verify that all target bodies exist and are valid before the operation."

/-- The error string built by the `except` branch of `execute_code`
(lines 137-147): `str(e)` plus the full trace, augmented with a canned hint
when the submitted code and the exception text match a known pattern.
The pattern conditions test `code.lower()` and `str(e).lower()`. -/
def exec_error_message (code : List Char) (e : PyExn) : List Char :=
  let base := sl "Error executing code: " ++ e.msg ++ sl "\n" ++ e.trace
  if containsSub (sl "revolve") (pyLower code)
      && containsSub (sl "tangent") (pyLower e.msg) then base ++ suggRevolve
  else if containsSub (sl "extrude") (pyLower code)
      && containsSub (sl "profile") (pyLower e.msg) then base ++ suggExtrude
  else if containsSub (sl "boolean") (pyLower code)
      && containsSub (sl "body") (pyLower e.msg) then base ++ suggBoolean
  else base

/-- `execute_code` of src/commands/fusionGPT/code_executor.py.  The first
component is the returned result string; the second records whether the
temporary code file still exists when the function returns.  A blocking
validation failure returns before the temporary file is created; on every
other path the file is created and then removed by the `finally` block, so
the flag is `false` on all paths of this variant. -/
def execute_code (code : List Char) (beh : ModuleBehavior) : List Char × Bool :=
  let v := validate_code code
  if !v.1 then (validation_failed_message v.2, false)
  else
    match beh with
    | .loadError e => (exec_error_message code e, false)
    | .runFn (.ok none) => (sl "Code executed successfully.", false)
    | .runFn (.ok (some r)) => (sl "Code executed successfully. Result: " ++ r, false)
    | .runFn (.error e) => (exec_error_message code e, false)
    | .noRunFn (.ok _) => (sl "Code executed directly (no run function found).", false)
    | .noRunFn (.error e) => (exec_error_message code e, false)

end FusionGPT

namespace PaletteShow

/-- `execute_code` of src/commands/paletteShow/code_executor.py.  The code
is wrapped into a `run(context)` unit and written to a temporary file; the
wrapped unit catches its own exceptions, so the external behaviour is the
string returned by `run(None)` (`.ok`) or an exception escaping the load or
call (`.error`).  The second component records whether the temporary file
still exists on return: `os.unlink` is executed only on the success path —
the `except` branch returns without deleting the file. -/
def execute_code (code : List Char) (beh : Except PyExn (List Char)) : List Char × Bool :=
  match beh with
  | .ok result =>
    ((if result.isEmpty then sl "Code executed successfully" else result), false)
  | .error e =>
    (sl "Error executing code: " ++ e.msg ++ sl "\n" ++ e.trace, true)

end PaletteShow

/-- A concrete code string that passes validation with no issues. -/
def sampleValidCode : List Char :=
  sl "def run(context)\ntry:\nexcept\napp = adsk.core.Application.get()\nui = app.userInterface"

/-- A concrete validation-clean code string containing a revolve operation. -/
def sampleRevolveCode : List Char := sampleValidCode ++ sl "\nrevolve"

/-- A fault whose formatted trace mentions tangent while the exception text
itself does not. -/
def tangentTraceExn : PyExn := ⟨sl "boom", sl "Traceback: in make_tangent_axis line 3"⟩

namespace FusionGPT

/-- `MAX_HISTORY_ITEMS` of src/commands/fusionGPT/entry.py. -/
def MAX_HISTORY_ITEMS : Nat := 5

/-- `add_to_history` of src/commands/fusionGPT/entry.py: insert at the
front, then pop the last element when the length exceeds the maximum. -/
def add_to_history {α : Type} (item : α) (history : List α) : List α :=
  let h := item :: history
  if MAX_HISTORY_ITEMS < h.length then h.dropLast else h

/-- A sequence of `add_to_history` calls, oldest item first. -/
def add_all {α : Type} (items : List α) (h : List α) : List α :=
  items.foldl (fun acc it => add_to_history it acc) h

end FusionGPT

/-- The in-memory session state of the panel controller: the two bounded
history lists of src/commands/fusionGPT/entry.py. -/
structure IncomingState where
  recent_code_history : List (List Char)
  recent_error_history : List (List Char)
deriving DecidableEq

/-- The observable outcome of one `palette_incoming` event: the text
returned to the panel, the updated histories, the number of model-gateway
calls made while handling the event, and the code strings passed to the
runner, in order. -/
structure IncomingResult where
  returnData : List Char
  state : IncomingState
  model_calls : Nat
  executed : List (List Char)
deriving DecidableEq

namespace FusionGPT

/-- The fix-intent keywords tested by `palette_incoming` (entry.py line 231). -/
def fix_keywords_outer : List (List Char) :=
  [sl "fix", sl "error", sl "failed", sl "issue", sl "problem", sl "not working"]

/-- The fix-intent keywords tested inside `enhance_prompt_with_history`
(entry.py line 174). -/
def fix_keywords_inner : List (List Char) :=
  [sl "fix", sl "error", sl "issue", sl "problem", sl "failed", sl "resolve",
   sl "help", sl "not working"]

/-- The per-error summary used in the error context: the first line when the
error has a newline, else the first 100 characters. -/
def error_summary (e : List Char) : List Char :=
  if containsSub (sl "\n") e then splitFst (sl "\n") e else e.take 100

/-- One decimal digit character. -/
def decDigit (n : Nat) : Char := (sl "0123456789").getD n '*'

/-- The decimal rendering of a natural number, as Python `str`. -/
def decChars (n : Nat) : List Char :=
  if _h : n < 10 then [decDigit n]
  else decChars (n / 10) ++ [decDigit (n % 10)]
decreasing_by exact Nat.div_lt_self (by omega) (by omega)

/-- The enumerated error lines of the error context, numbering from i+1. -/
def error_lines : Nat → List (List Char) → List Char
  | _, [] => []
  | i, e :: rest =>
    decChars (i + 1) ++ sl ". " ++ error_summary e ++ sl "\n" ++ error_lines (i + 1) rest

/-- The error-context block of `enhance_prompt_with_history`. -/
def error_context (errs : List (List Char)) : List Char :=
  sl "\n\nHere are recent errors to avoid:\n" ++ error_lines 0 errs

/-- `enhance_prompt_with_history` of src/commands/fusionGPT/entry.py. -/
def enhance_prompt_with_history (message : List Char) (errs : List (List Char)) : List Char :=
  if errs.isEmpty then message
  else if fix_keywords_inner.any (fun k => containsSub k (pyLower message)) then
    message ++ sl "\n" ++ error_context errs
  else message

/-- The no-code reply of the execute-previous-code command. -/
def noCodeMsg : List Char :=
  sl "No code found to execute. Please try again or provide code directly."

/-- The canned panel-level hint for a tangent revolve failure (entry.py line 267). -/
def paletteFixTangent : List Char :=
  sl "\n\n**Suggested Fix:** The revolve operation failed because the axis is tangent to the profile. Try moving the axis away from the profile or changing the profile shape."

/-- The canned panel-level hint for an invalid-profile extrude failure. -/
def paletteFixProfile : List Char :=
  sl "\n\n**Suggested Fix:** The extrude operation failed because of an invalid profile. Ensure the sketch contains closed profiles and correct profile selection."

/-- The canned panel-level hint for a boolean failure. -/
def paletteFixBoolean : List Char :=
  sl "\n\n**Suggested Fix:** The boolean operation failed. Verify all bodies exist before the operation."

/-- The fallback tip inviting the user to ask for a fix (entry.py line 273). -/
def paletteTip : List Char :=
  sl "\n\n**Tip:** If you\x27d like me to fix this error, just ask \x27Please fix the error\x27."

/-- The model reply obtained in the normal flow of `palette_incoming`:
the message is optionally enriched with the error history when it carries
fix-intent keywords, then sent through `process_message`. -/
def palette_response (user_message : List Char) (st : IncomingState)
    (client : List Char → Except PyExn ProviderReply) : List Char :=
  let is_fixing := fix_keywords_outer.any (fun k => containsSub k (pyLower user_message))
  let enhanced := if is_fixing
                  then enhance_prompt_with_history user_message st.recent_error_history
                  else user_message
  process_message enhanced client

/-- `palette_incoming` of src/commands/fusionGPT/entry.py (lines 189-287).
External effects are explicit: `client` models the provider call made by
`process_message`, `execB` models the dynamic behaviour of each executed
code unit.  The result records the reply text, the new histories, the
number of model calls and the codes executed. -/
def palette_incoming (user_message arg2 : List Char) (st : IncomingState)
    (client : List Char → Except PyExn ProviderReply)
    (execB : List Char → ModuleBehavior) : IncomingResult :=
  if (sl "execute the previous code").isPrefixOf (pyLower user_message) then
    let c1 := extract_code arg2
    let c2 := if !(pyTruthy c1) && !st.recent_code_history.isEmpty
              then st.recent_code_history.head? else c1
    match c2 with
    | none => ⟨noCodeMsg, st, 0, []⟩
    | some code =>
      if code.isEmpty then ⟨noCodeMsg, st, 0, []⟩
      else
        let execution_result := (execute_code code (execB code)).1
        let errh := if containsSub (sl "Error") execution_result
                    then add_to_history execution_result st.recent_error_history
                    else st.recent_error_history
        ⟨sl "Execution Result:\n```\n" ++ execution_result ++ sl "\n```",
         ⟨st.recent_code_history, errh⟩, 0, [code]⟩
  else
    let response := palette_response user_message st client
    let codeOpt := extract_code response
    let codeh := if pyTruthy codeOpt
                 then add_to_history (codeOpt.getD []) st.recent_code_history
                 else st.recent_code_history
    if pyTruthy codeOpt
        && !(containsSub (sl "don\x27t execute") (pyLower user_message))
        && !(containsSub (sl "do not execute") (pyLower user_message)) then
      let code := codeOpt.getD []
      let execution_result := (execute_code code (execB code)).1
      let errh := if containsSub (sl "Error") execution_result
                  then add_to_history execution_result st.recent_error_history
                  else st.recent_error_history
      let response2 := response ++ sl "\n\n**Execution Result:**\n```\n"
                       ++ execution_result ++ sl "\n```"
      let response3 :=
        if containsSub (sl "Error") execution_result then
          if containsSub (sl "tangent") execution_result
              && containsSub (sl "revolve") execution_result then
            response2 ++ paletteFixTangent
          else if containsSub (sl "profile") execution_result
              && containsSub (sl "extrude") execution_result then
            response2 ++ paletteFixProfile
          else if containsSub (sl "body") execution_result
              && containsSub (sl "boolean") execution_result then
            response2 ++ paletteFixBoolean
          else response2 ++ paletteTip
        else response2
      ⟨response3, ⟨codeh, errh⟩, 1, [code]⟩
    else
      ⟨response, ⟨codeh, st.recent_error_history⟩, 1, []⟩

end FusionGPT

/-- The fault raised by the executed revolve code in the concrete retry
scenario: the exception text carries the tangent keyword. -/
def c1Exn : PyExn := ⟨sl "revolve axis tangent", sl "tb"⟩

/-- The model reply of the concrete retry scenario: one fenced code block
holding the revolve code. -/
def c1Response : List Char := sl "```python\n" ++ sampleRevolveCode ++ sl "\n```"

/-- A provider that always answers with the revolve reply. -/
def c1Client : List Char → Except PyExn ProviderReply := fun _ => Except.ok ⟨[c1Response]⟩

/-- An execution environment in which every code unit fails with the
tangent fault. -/
def c1ExecB : List Char → ModuleBehavior := fun _ => ModuleBehavior.runFn (Except.error c1Exn)

/-- The full handler outcome of the concrete retry scenario. -/
def c1Outcome : IncomingResult :=
  FusionGPT.palette_incoming (sl "hello") (sl "") ⟨[], []⟩ c1Client c1ExecB

theorem isPrefixOf_append_self (l t : List Char) : l.isPrefixOf (l ++ t) = true := by
  induction l with
  | nil => simp [List.isPrefixOf]
  | cons c cs ih => simp [List.isPrefixOf, ih]

theorem findSep_self (sep b : List Char) : findSep sep (sep ++ b) = some ([], b) := by
  cases hs : sep ++ b with
  | nil =>
    rcases List.append_eq_nil.mp hs with ⟨h1, h2⟩
    subst h1; subst h2
    simp [findSep, List.isPrefixOf]
  | cons c rest =>
    rw [← hs]
    cases sep with
    | nil => cases b with
      | nil => simp at hs
      | cons x xs => simp [findSep, List.isPrefixOf]
    | cons a as =>
      have hcons : (a :: as) ++ b = a :: (as ++ b) := rfl
      rw [hcons]
      simp only [findSep]
      rw [show a :: (as ++ b) = (a :: as) ++ b from rfl,
        isPrefixOf_append_self]
      simp [List.drop_left]

theorem findSep_sound {sep s a b : List Char} (h : findSep sep s = some (a, b)) :
    s = a ++ sep ++ b := by
  induction s generalizing a with
  | nil =>
    by_cases hp : sep.isPrefixOf ([] : List Char) = true
    · have hsep : sep = [] := by
        cases sep with
        | nil => rfl
        | cons x xs => simp [List.isPrefixOf] at hp
      subst hsep
      simp [findSep] at h
      simp [h.1, h.2]
    · simp [findSep, hp] at h
  | cons c rest ih =>
    by_cases hp : sep.isPrefixOf (c :: rest) = true
    · simp only [findSep, hp, if_true, Option.some.injEq, Prod.mk.injEq] at h
      obtain ⟨t, ht⟩ := List.isPrefixOf_iff_prefix.mp hp
      have hb : b = t := by
        rw [← h.2, ← ht, List.drop_left]
      rw [← h.1, hb, ← ht]
      simp
    · have hx : sep.isPrefixOf (c :: rest) = false := by
        cases hxx : sep.isPrefixOf (c :: rest) with
        | false => rfl
        | true => exact absurd hxx hp
      simp only [findSep, hx, Bool.false_eq_true, if_false] at h
      cases hfs : findSep sep rest with
      | none => rw [hfs] at h; simp at h
      | some p =>
        obtain ⟨pre, post⟩ := p
        rw [hfs] at h
        simp only [Option.some.injEq, Prod.mk.injEq] at h
        have hpost : findSep sep rest = some (pre, b) := by rw [hfs, h.2]
        have := ih (a := pre) hpost
        rw [← h.1, this]
        simp

theorem findSep_complete (sep : List Char) (a b : List Char)
    (h : occursBefore sep (a ++ sep ++ b) a.length = false) :
    findSep sep (a ++ sep ++ b) = some (a, b) := by
  induction a with
  | nil => simpa using findSep_self sep b
  | cons c a' ih =>
    have hcons : (c :: a') ++ sep ++ b = c :: (a' ++ sep ++ b) := by simp
    rw [hcons]
    rw [hcons] at h
    have hlen : (c :: a').length = a'.length + 1 := rfl
    rw [hlen] at h
    simp only [occursBefore, List.tail_cons, Bool.or_eq_false_iff] at h
    simp only [findSep, h.1, Bool.false_eq_true, if_false, ih h.2]

theorem findSep_isSome_append (sep a b : List Char) :
    (findSep sep (a ++ sep ++ b)).isSome = true := by
  induction a with
  | nil => simp [findSep_self]
  | cons c a' ih =>
    have hcons : (c :: a') ++ sep ++ b = c :: (a' ++ sep ++ b) := by simp
    rw [hcons]
    by_cases hp : sep.isPrefixOf (c :: (a' ++ sep ++ b)) = true
    · simp only [findSep, hp, eq_self_iff_true, if_true, Option.isSome_some]
    · have hx : sep.isPrefixOf (c :: (a' ++ sep ++ b)) = false := by
        cases hxx : sep.isPrefixOf (c :: (a' ++ sep ++ b)) with
        | false => rfl
        | true => exact absurd hxx hp
      simp only [findSep, hx, Bool.false_eq_true, if_false]
      cases hfs : findSep sep (a' ++ sep ++ b) with
      | none => rw [hfs] at ih; simp at ih
      | some p => obtain ⟨pre, post⟩ := p; simp

theorem containsSub_of_parts (sep a b : List Char) :
    containsSub sep (a ++ sep ++ b) = true := by
  simpa [containsSub] using findSep_isSome_append sep a b

namespace FusionGPT

theorem getD_ascii (l : List Char) (n : Nat) (d : Char) (hd : d.toNat < 128)
    (hl : ∀ c ∈ l, c.toNat < 128) : (l.getD n d).toNat < 128 := by
  induction l generalizing n with
  | nil => simpa [List.getD] using hd
  | cons c t ih =>
    cases n with
    | zero => simpa [List.getD] using hl c (by simp)
    | succ m =>
      have : (c :: t).getD (m + 1) d = t.getD m d := by simp [List.getD]
      rw [this]
      exact ih m (fun x hx => hl x (by simp [hx]))

theorem hexDigit_ascii (n : Nat) : (hexDigit n).toNat < 128 := by
  unfold hexDigit
  exact getD_ascii _ _ _ (by decide) (by decide)

theorem hexChars_ascii (n : Nat) : ∀ c ∈ hexChars n, c.toNat < 128 := by
  induction n using Nat.strong_induction_on with
  | _ n ih =>
    intro c hc
    unfold hexChars at hc
    by_cases h : n < 16
    · simp [h] at hc
      rw [hc]
      exact hexDigit_ascii n
    · simp [h] at hc
      rcases hc with hc | hc
      · exact ih (n / 16) (Nat.div_lt_self (by omega) (by omega)) c hc
      · rw [hc]
        exact hexDigit_ascii (n % 16)

theorem unicodeComment_ascii (x : Char) : ∀ c ∈ unicodeComment x, c.toNat < 128 := by
  have hlit1 : ∀ c ∈ sl " /* Unicode character ", c.toNat < 128 := by decide
  have hlit2 : ∀ c ∈ sl " removed */ ", c.toNat < 128 := by decide
  intro c hc
  unfold unicodeComment at hc
  rcases List.mem_append.mp hc with hc | hc
  · rcases List.mem_append.mp hc with hc | hc
    · exact hlit1 c hc
    · unfold pyHex at hc
      simp only [List.mem_cons] at hc
      rcases hc with hc | hc | hc
      · rw [hc]; decide
      · rw [hc]; decide
      · exact hexChars_ascii x.toNat c hc
  · exact hlit2 c hc

theorem asciiPass_cons (ch : Char) (t : List Char) :
    asciiPass (ch :: t) = (if ch.toNat < 128 then [ch] else unicodeComment ch) ++ asciiPass t := rfl

theorem asciiPass_ascii (s : List Char) : ∀ c ∈ asciiPass s, c.toNat < 128 := by
  induction s with
  | nil => intro c hc; simp [asciiPass] at hc
  | cons ch t ih =>
    intro c hc
    rw [asciiPass_cons] at hc
    rcases List.mem_append.mp hc with hc | hc
    · by_cases h : ch.toNat < 128
      · simp [h] at hc; rw [hc]; exact h
      · simp [h] at hc; exact unicodeComment_ascii ch c hc
    · exact ih c hc

theorem remove_unicode_chars_ascii (s : List Char) :
    ∀ c ∈ remove_unicode_chars s, c.toNat < 128 :=
  asciiPass_ascii (applyReplacements s)

theorem replaceChar_cons (c : Char) (r : List Char) (ch : Char) (t : List Char) :
    replaceChar c r (ch :: t) =
      if ch = c then r ++ replaceChar c r t else ch :: replaceChar c r t := rfl

theorem replaceChar_id (c : Char) (r : List Char) (s : List Char)
    (hs : ∀ ch ∈ s, ch.toNat < 128) (hc : 128 ≤ c.toNat) : replaceChar c r s = s := by
  induction s with
  | nil => rfl
  | cons ch t ih =>
    rw [replaceChar_cons]
    have hne : ch ≠ c := by
      intro he
      have := hs ch (by simp)
      rw [he] at this
      omega
    rw [if_neg hne, ih (fun x hx => hs x (by simp [hx]))]

theorem foldl_replace_id (reps : List (Char × List Char)) (s : List Char)
    (hreps : ∀ p ∈ reps, 128 ≤ p.1.toNat) (hs : ∀ ch ∈ s, ch.toNat < 128) :
    reps.foldl (fun acc p => replaceChar p.1 p.2 acc) s = s := by
  induction reps with
  | nil => rfl
  | cons p t ih =>
    rw [List.foldl_cons, replaceChar_id p.1 p.2 s hs (hreps p (by simp))]
    exact ih (fun q hq => hreps q (by simp [hq]))

theorem applyReplacements_id (s : List Char) (hs : ∀ ch ∈ s, ch.toNat < 128) :
    applyReplacements s = s :=
  foldl_replace_id unicodeReplacements s (by decide) hs

theorem asciiPass_id (s : List Char) (hs : ∀ ch ∈ s, ch.toNat < 128) :
    asciiPass s = s := by
  induction s with
  | nil => rfl
  | cons ch t ih =>
    rw [asciiPass_cons, if_pos (hs ch (by simp)), ih (fun x hx => hs x (by simp [hx]))]
    rfl

theorem remove_unicode_chars_id (s : List Char) (hs : ∀ ch ∈ s, ch.toNat < 128) :
    remove_unicode_chars s = s := by
  unfold remove_unicode_chars
  rw [applyReplacements_id s hs, asciiPass_id s hs]

theorem remove_unicode_chars_idem (s : List Char) :
    remove_unicode_chars (remove_unicode_chars s) = remove_unicode_chars s :=
  remove_unicode_chars_id _ (remove_unicode_chars_ascii s)

theorem extract_code_shape (m code : List Char) (h : extract_code m = some code) :
    ∃ x, code = remove_unicode_chars x := by
  cases hpy : findSep sepPy m with
  | some p =>
    obtain ⟨pre, rest⟩ := p
    cases ht : findSep sepTick rest with
    | some q =>
      obtain ⟨inner, after⟩ := q
      simp only [extract_code, hpy, ht, Option.some.injEq] at h
      exact ⟨pyStrip inner, h.symm⟩
    | none =>
      simp only [extract_code, hpy, ht, extract_code_bare] at h
      cases hb : findSep sepTick m with
      | some r =>
        obtain ⟨x, y⟩ := r
        rw [hb] at h
        simp only [Option.some.injEq] at h
        exact ⟨pyStrip (splitFst sepTick y), h.symm⟩
      | none => rw [hb] at h; simp at h
  | none =>
    simp only [extract_code, hpy, extract_code_bare] at h
    cases hb : findSep sepTick m with
    | some r =>
      obtain ⟨x, y⟩ := r
      rw [hb] at h
      simp only [Option.some.injEq] at h
      exact ⟨pyStrip (splitFst sepTick y), h.symm⟩
    | none => rw [hb] at h; simp at h

end FusionGPT

theorem sepPy_decomp : sepPy = sepTick ++ sl "python" := by decide

/-- Claim C10: every output of remove_unicode_chars is pure ASCII, the
function is the identity on pure-ASCII strings, hence idempotent, and every
code string returned by the fusionGPT extract_code is pure ASCII. -/
theorem C10_remove_unicode_chars_ascii :
    (∀ s : List Char, ∀ c ∈ FusionGPT.remove_unicode_chars s, c.toNat < 128)
    ∧ (∀ s : List Char, (∀ c ∈ s, c.toNat < 128) → FusionGPT.remove_unicode_chars s = s)
    ∧ (∀ s : List Char,
        FusionGPT.remove_unicode_chars (FusionGPT.remove_unicode_chars s)
          = FusionGPT.remove_unicode_chars s)
    ∧ (∀ m code : List Char, FusionGPT.extract_code m = some code →
        ∀ c ∈ code, c.toNat < 128) := by
  refine ⟨FusionGPT.remove_unicode_chars_ascii, FusionGPT.remove_unicode_chars_id,
    FusionGPT.remove_unicode_chars_idem, ?_⟩
  intro m code h
  obtain ⟨x, hx⟩ := FusionGPT.extract_code_shape m code h
  rw [hx]
  exact FusionGPT.remove_unicode_chars_ascii x

/-- Witness for C10 at concrete inputs: identity on the ASCII string ok, and
the code extracted from a concrete fenced message is ASCII. -/
theorem C10_witness :
    FusionGPT.remove_unicode_chars (sl "ok") = sl "ok"
    ∧ (∀ c ∈ sl "pass", c.toNat < 128) :=
  ⟨C10_remove_unicode_chars_ascii.2.1 (sl "ok") (by decide),
   C10_remove_unicode_chars_ascii.2.2.2 (sl "```pass```") (sl "pass") (by decide)⟩

/-- Counterexample for C2: a message with an opening language-tagged fence
and no closing fence does not yield the no-code result; the extractor falls
through to the bare-fence branch and returns the trimmed text after the
first fence marker. -/
theorem C2_counterexample :
    FusionGPT.extract_code (sl "x```python\nfoo") = some (sl "python\nfoo")
    ∧ FusionGPT.extract_code (sl "x```python\nfoo") ≠ none :=
  ⟨by decide, by decide⟩

theorem extract_code_isSome (m : List Char) :
    (FusionGPT.extract_code m).isSome = containsSub sepTick m
    ∧ (PaletteShow.extract_code m).isSome = containsSub sepTick m := by
  cases hpy : findSep sepPy m with
  | none =>
    cases ht : findSep sepTick m with
    | none =>
      constructor
      · simp [FusionGPT.extract_code, hpy, FusionGPT.extract_code_bare, ht, containsSub]
      · simp [PaletteShow.extract_code, hpy, PaletteShow.extract_code_bare, ht, containsSub]
    | some p =>
      obtain ⟨x, y⟩ := p
      constructor
      · simp [FusionGPT.extract_code, hpy, FusionGPT.extract_code_bare, ht, containsSub]
      · simp [PaletteShow.extract_code, hpy, PaletteShow.extract_code_bare, ht, containsSub]
  | some p =>
    obtain ⟨pre, rest⟩ := p
    have hm : m = pre ++ sepPy ++ rest := findSep_sound hpy
    have hdec : m = pre ++ sepTick ++ (sl "python" ++ rest) := by
      rw [hm, sepPy_decomp]
      simp [List.append_assoc]
    have hsub : containsSub sepTick m = true := by
      rw [hdec]
      exact containsSub_of_parts sepTick pre (sl "python" ++ rest)
    cases h2 : findSep sepTick rest with
    | some q =>
      obtain ⟨i, r⟩ := q
      constructor
      · simp [FusionGPT.extract_code, hpy, h2, hsub]
      · simp [PaletteShow.extract_code, hpy, h2, hsub]
    | none =>
      have hms : ∃ q, findSep sepTick m = some q := by
        have := hsub
        unfold containsSub at this
        exact Option.isSome_iff_exists.mp this
      obtain ⟨⟨x, y⟩, hxy⟩ := hms
      constructor
      · simp [FusionGPT.extract_code, hpy, h2, FusionGPT.extract_code_bare, hxy, hsub]
      · simp [PaletteShow.extract_code, hpy, h2, PaletteShow.extract_code_bare, hxy, hsub]

/-- Amended claim C2: when a language-tagged fence is followed by a closing
fence, the paletteShow extractor returns exactly the trimmed interior and
the fusionGPT extractor returns the trimmed interior passed through
remove_unicode_chars (which is the identity when the interior is ASCII);
when the text has a bare opening fence and no closing fence the extractors
return the trimmed text after the fence rather than the no-code result;
the no-code result occurs exactly when no fence marker occurs at all. -/
theorem C2_amended_extract_code :
    (∀ a b c : List Char,
      occursBefore sepPy (a ++ sepPy ++ (b ++ sepTick ++ c)) a.length = false →
      occursBefore sepTick (b ++ sepTick ++ c) b.length = false →
      FusionGPT.extract_code (a ++ sepPy ++ (b ++ sepTick ++ c))
          = some (FusionGPT.remove_unicode_chars (pyStrip b))
        ∧ PaletteShow.extract_code (a ++ sepPy ++ (b ++ sepTick ++ c)) = some (pyStrip b)
        ∧ ((∀ ch ∈ pyStrip b, ch.toNat < 128) →
            FusionGPT.extract_code (a ++ sepPy ++ (b ++ sepTick ++ c)) = some (pyStrip b)))
    ∧ (∀ a b : List Char,
      findSep sepPy (a ++ sepTick ++ b) = none →
      occursBefore sepTick (a ++ sepTick ++ b) a.length = false →
      findSep sepTick b = none →
      FusionGPT.extract_code (a ++ sepTick ++ b)
          = some (FusionGPT.remove_unicode_chars (pyStrip b))
        ∧ PaletteShow.extract_code (a ++ sepTick ++ b) = some (pyStrip b))
    ∧ (∀ m : List Char,
      (FusionGPT.extract_code m).isSome = containsSub sepTick m
        ∧ (PaletteShow.extract_code m).isSome = containsSub sepTick m) := by
  refine ⟨?_, ?_, extract_code_isSome⟩
  · intro a b c h1 h2
    have e1 : findSep sepPy (a ++ sepPy ++ (b ++ sepTick ++ c)) = some (a, b ++ sepTick ++ c) :=
      findSep_complete sepPy a (b ++ sepTick ++ c) h1
    have e2 : findSep sepTick (b ++ sepTick ++ c) = some (b, c) :=
      findSep_complete sepTick b c h2
    simp only [List.append_assoc] at e1 e2
    refine ⟨?_, ?_, ?_⟩
    · simp [FusionGPT.extract_code, e1, e2]
    · simp [PaletteShow.extract_code, e1, e2]
    · intro hascii
      simp [FusionGPT.extract_code, e1, e2,
        FusionGPT.remove_unicode_chars_id (pyStrip b) hascii]
  · intro a b e1 h2 h3
    have e2 : findSep sepTick (a ++ sepTick ++ b) = some (a, b) :=
      findSep_complete sepTick a b h2
    simp only [List.append_assoc] at e1 e2
    constructor
    · simp [FusionGPT.extract_code, e1, FusionGPT.extract_code_bare, e2, splitFst, h3]
    · simp [PaletteShow.extract_code, e1, PaletteShow.extract_code_bare, e2, splitFst, h3]

/-- Witness for the amended C2 on a concrete closed tagged fence. -/
theorem C2_witness :
    FusionGPT.extract_code (sl "A " ++ sepPy ++ (sl "\ncode\n" ++ sepTick ++ sl " t"))
        = some (pyStrip (sl "\ncode\n"))
    ∧ PaletteShow.extract_code (sl "A " ++ sepPy ++ (sl "\ncode\n" ++ sepTick ++ sl " t"))
        = some (pyStrip (sl "\ncode\n")) := by
  have h := C2_amended_extract_code.1 (sl "A ") (sl "\ncode\n") (sl " t")
    (by decide) (by decide)
  exact ⟨h.2.2 (by decide), h.2.1⟩

/-- Counterexample for C3: a message that carries an intent keyword is the
one that gets rewritten, and a message without any keyword is forwarded
unchanged — the opposite of the claimed direction. -/
theorem C3_counterexample :
    FusionGPT.has_intent_keyword (sl "create a cube") = true
    ∧ FusionGPT.enhanced_message (sl "create a cube") ≠ sl "create a cube"
    ∧ FusionGPT.has_intent_keyword (sl "hello") = false
    ∧ FusionGPT.enhanced_message (sl "hello") = sl "hello" :=
  ⟨by decide, by decide, by decide, by decide⟩

/-- Amended claim C3: the formatter rewrites the message into the explicit
code-generation request exactly when the message contains one of the intent
keywords (create, make, generate, model, build, design, case-insensitive);
a message without any of them is forwarded unchanged. -/
theorem C3_amended_enhanced_message (m : List Char) :
    (FusionGPT.enhanced_message m ≠ m ↔ FusionGPT.has_intent_keyword m = true)
    ∧ (FusionGPT.has_intent_keyword m = true →
        FusionGPT.enhanced_message m
          = FusionGPT.codeRewriteHead ++ m ++ FusionGPT.codeRewriteTail)
    ∧ (FusionGPT.has_intent_keyword m = false → FusionGPT.enhanced_message m = m) := by
  have hpos : FusionGPT.has_intent_keyword m = true →
      FusionGPT.enhanced_message m
        = FusionGPT.codeRewriteHead ++ m ++ FusionGPT.codeRewriteTail := by
    intro h
    unfold FusionGPT.enhanced_message
    rw [if_pos h]
  have hneg : FusionGPT.has_intent_keyword m = false →
      FusionGPT.enhanced_message m = m := by
    intro h
    unfold FusionGPT.enhanced_message
    rw [h]
    simp
  refine ⟨⟨?_, ?_⟩, hpos, hneg⟩
  · intro hne
    cases hk : FusionGPT.has_intent_keyword m with
    | false => exact absurd (hneg hk) hne
    | true => rfl
  · intro hk he
    have := hpos hk
    rw [he] at this
    have hlen := congrArg List.length this
    simp only [List.length_append] at hlen
    have hhead : 0 < FusionGPT.codeRewriteHead.length := by decide
    omega

/-- Witness for the amended C3 at concrete messages. -/
theorem C3_witness :
    FusionGPT.enhanced_message (sl "hi") = sl "hi"
    ∧ FusionGPT.enhanced_message (sl "make it")
        = FusionGPT.codeRewriteHead ++ sl "make it" ++ FusionGPT.codeRewriteTail :=
  ⟨(C3_amended_enhanced_message (sl "hi")).2.2 (by decide),
   (C3_amended_enhanced_message (sl "make it")).2.1 (by decide)⟩

theorem apiErrorText_marked (e : PyExn) :
    (sl "Error communicating with Claude: ").isPrefixOf (FusionGPT.apiErrorText e) = true := by
  have hdec : FusionGPT.apiErrorText e
      = sl "Error communicating with Claude: "
        ++ (sl "API Error: " ++ e.msg ++ sl "\n" ++ e.trace) := by
    unfold FusionGPT.apiErrorText
    have : sl "Error communicating with Claude: API Error: "
        = sl "Error communicating with Claude: " ++ sl "API Error: " := by decide
    rw [this]
    simp [List.append_assoc]
  rw [hdec]
  exact isPrefixOf_append_self _ _

/-- Claim C7: the model gateway always returns a string (the embedding is a
total function): on a successful provider reply with a nonempty content list
it returns the first text block, and on any caught provider error it returns
a string prefixed by the error marker.  Both the fusionGPT and the
paletteShow variants are covered. -/
theorem C7_process_message_gateway :
    (∀ (msg : List Char) (client : List Char → Except PyExn ProviderReply)
        (t : List Char) (rest : List (List Char)),
      client (FusionGPT.enhanced_message msg) = .ok ⟨t :: rest⟩ →
      FusionGPT.process_message msg client = t)
    ∧ (∀ (msg : List Char) (client : List Char → Except PyExn ProviderReply) (e : PyExn),
      client (FusionGPT.enhanced_message msg) = .error e →
      FusionGPT.process_message msg client = FusionGPT.apiErrorText e)
    ∧ (∀ (msg : List Char) (client : List Char → Except PyExn ProviderReply),
      (∃ t rest, client (FusionGPT.enhanced_message msg) = .ok ⟨t :: rest⟩
          ∧ FusionGPT.process_message msg client = t)
        ∨ (sl "Error communicating with Claude: ").isPrefixOf
            (FusionGPT.process_message msg client) = true)
    ∧ (∀ (msg : List Char) (client : List Char → Except PyExn ProviderReply)
        (t : List Char) (rest : List (List Char)),
      client msg = .ok ⟨t :: rest⟩ → PaletteShow.process_message msg client = t)
    ∧ (∀ (msg : List Char) (client : List Char → Except PyExn ProviderReply) (e : PyExn),
      client msg = .error e →
      PaletteShow.process_message msg client
        = sl "Error communicating with Claude: " ++ e.msg)
    ∧ (∀ (msg : List Char) (client : List Char → Except PyExn ProviderReply),
      (∃ t rest, client msg = .ok ⟨t :: rest⟩ ∧ PaletteShow.process_message msg client = t)
        ∨ (sl "Error communicating with Claude: ").isPrefixOf
            (PaletteShow.process_message msg client) = true) := by
  refine ⟨?_, ?_, ?_, ?_, ?_, ?_⟩
  · intro msg client t rest h
    simp [FusionGPT.process_message, h]
  · intro msg client e h
    simp [FusionGPT.process_message, h]
  · intro msg client
    cases hc : client (FusionGPT.enhanced_message msg) with
    | error e =>
      right
      have : FusionGPT.process_message msg client = FusionGPT.apiErrorText e := by
        simp [FusionGPT.process_message, hc]
      rw [this]
      exact apiErrorText_marked e
    | ok reply =>
      obtain ⟨content⟩ := reply
      cases content with
      | nil =>
        right
        have : FusionGPT.process_message msg client
            = FusionGPT.apiErrorText FusionGPT.indexErrorExn := by
          simp [FusionGPT.process_message, hc]
        rw [this]
        exact apiErrorText_marked _
      | cons t rest =>
        left
        exact ⟨t, rest, rfl, by simp [FusionGPT.process_message, hc]⟩
  · intro msg client t rest h
    simp [PaletteShow.process_message, h]
  · intro msg client e h
    simp [PaletteShow.process_message, h]
  · intro msg client
    cases hc : client msg with
    | error e =>
      right
      have : PaletteShow.process_message msg client
          = sl "Error communicating with Claude: " ++ e.msg := by
        simp [PaletteShow.process_message, hc]
      rw [this]
      exact isPrefixOf_append_self _ _
    | ok reply =>
      obtain ⟨content⟩ := reply
      cases content with
      | nil =>
        right
        have : PaletteShow.process_message msg client
            = sl "Error communicating with Claude: " ++ (FusionGPT.indexErrorExn).msg := by
          simp [PaletteShow.process_message, hc]
        rw [this]
        exact isPrefixOf_append_self _ _
      | cons t rest =>
        left
        exact ⟨t, rest, rfl, by simp [PaletteShow.process_message, hc]⟩

/-- Witness for C7 with a concrete successful client and a concrete failing
client. -/
theorem C7_witness :
    FusionGPT.process_message (sl "q") (fun _ => Except.ok ⟨[sl "hi"]⟩) = sl "hi"
    ∧ PaletteShow.process_message (sl "q") (fun _ => Except.error ⟨sl "boom", sl "tb"⟩)
        = sl "Error communicating with Claude: " ++ sl "boom" :=
  ⟨C7_process_message_gateway.1 (sl "q") (fun _ => Except.ok ⟨[sl "hi"]⟩) (sl "hi") [] rfl,
   C7_process_message_gateway.2.2.2.2.1 (sl "q")
     (fun _ => Except.error ⟨sl "boom", sl "tb"⟩) ⟨sl "boom", sl "tb"⟩ rfl⟩

theorem validate_code_fst (code : List Char) :
    (FusionGPT.validate_code code).1
      = ((FusionGPT.validation_issues code).isEmpty
        || (FusionGPT.validation_issues code).all (fun i => containsSub (sl "WARNING") i)) := rfl

theorem validate_code_snd (code : List Char) :
    (FusionGPT.validate_code code).2 = FusionGPT.validation_issues code := rfl

/-- Counterexample for C4: in the paletteShow runner, an execution fault
leaves the temporary file in place (the unlink is only on the success path). -/
theorem C4_counterexample :
    (PaletteShow.execute_code (sl "x") (Except.error ⟨sl "boom", sl "tb"⟩)).2 = true := rfl

/-- Amended claim C4: the fusionGPT runner removes the temporary file on
every exit path (and never creates one when validation blocks); the
paletteShow runner removes it only when execution succeeds, and leaves it
behind whenever the load or the call raises. -/
theorem C4_amended_temp_file_cleanup :
    (∀ (code : List Char) (beh : ModuleBehavior),
      (FusionGPT.execute_code code beh).2 = false)
    ∧ (∀ (code r : List Char),
      (PaletteShow.execute_code code (Except.ok r)).2 = false)
    ∧ (∀ (code : List Char) (e : PyExn),
      (PaletteShow.execute_code code (Except.error e)).2 = true) := by
  refine ⟨?_, ?_, ?_⟩
  · intro code beh
    cases hv : (FusionGPT.validate_code code).1 with
    | false => simp [FusionGPT.execute_code, hv]
    | true =>
      cases beh with
      | loadError e => simp [FusionGPT.execute_code, hv]
      | runFn r =>
        cases r with
        | ok o => cases o <;> simp [FusionGPT.execute_code, hv]
        | error e => simp [FusionGPT.execute_code, hv]
      | noRunFn r => cases r <;> simp [FusionGPT.execute_code, hv]
  · intro code r
    simp [PaletteShow.execute_code]
  · intro code e
    simp [PaletteShow.execute_code]

/-- Claim C6: a blocking (non-WARNING) validation issue aborts execution
and reports the validation failure with the issue list; a missing
run(context) marker is such a blocking issue; an issue list that is all
advisory (WARNING) still proceeds to execution. -/
theorem C6_validation_policy :
    (∀ (code : List Char) (beh : ModuleBehavior),
      (∃ i ∈ (FusionGPT.validate_code code).2, containsSub (sl "WARNING") i = false) →
      FusionGPT.execute_code code beh
        = (FusionGPT.validation_failed_message (FusionGPT.validate_code code).2, false))
    ∧ (∀ code : List Char, containsSub (sl "def run(context)") code = false →
        (sl "Missing run(context) function definition") ∈ (FusionGPT.validate_code code).2
        ∧ (FusionGPT.validate_code code).1 = false)
    ∧ (∀ code : List Char,
        (∀ i ∈ (FusionGPT.validate_code code).2, containsSub (sl "WARNING") i = true) →
        FusionGPT.execute_code code (.runFn (.ok none))
          = (sl "Code executed successfully.", false)) := by
  have hfalse_of_mem : ∀ (code : List Char) (i : List Char),
      i ∈ FusionGPT.validation_issues code → containsSub (sl "WARNING") i = false →
      (FusionGPT.validate_code code).1 = false := by
    intro code i hi hw
    have hne : (FusionGPT.validation_issues code).isEmpty = false := by
      cases hvi : FusionGPT.validation_issues code with
      | nil => rw [hvi] at hi; simp at hi
      | cons x xs => rfl
    have hall : (FusionGPT.validation_issues code).all
        (fun j => containsSub (sl "WARNING") j) = false := by
      cases hA : (FusionGPT.validation_issues code).all
          (fun j => containsSub (sl "WARNING") j) with
      | false => rfl
      | true =>
        have := List.all_eq_true.mp hA i hi
        rw [hw] at this
        simp at this
    rw [validate_code_fst, hne, hall]
    rfl
  refine ⟨?_, ?_, ?_⟩
  · intro code beh h
    obtain ⟨i, hi, hw⟩ := h
    rw [validate_code_snd] at hi
    have hv := hfalse_of_mem code i hi hw
    simp [FusionGPT.execute_code, hv]
  · intro code h
    have hmem : (sl "Missing run(context) function definition")
        ∈ FusionGPT.validation_issues code := by
      simp [FusionGPT.validation_issues, h]
    refine ⟨hmem, hfalse_of_mem code _ hmem (by decide)⟩
  · intro code h
    have hall : (FusionGPT.validation_issues code).all
        (fun i => containsSub (sl "WARNING") i) = true :=
      List.all_eq_true.mpr (fun i hi => h i hi)
    have hv : (FusionGPT.validate_code code).1 = true := by
      rw [validate_code_fst, hall]
      simp
    simp [FusionGPT.execute_code, hv]

/-- Witness for C6: a clean code unit proceeds to execution; a code string
without the run(context) marker is blocked and aborted. -/
theorem C6_witness :
    FusionGPT.execute_code sampleValidCode (.runFn (.ok none))
        = (sl "Code executed successfully.", false)
    ∧ (sl "Missing run(context) function definition") ∈ (FusionGPT.validate_code (sl "x")).2
    ∧ (FusionGPT.validate_code (sl "x")).1 = false
    ∧ FusionGPT.execute_code (sl "x") (.runFn (.ok none))
        = (FusionGPT.validation_failed_message (FusionGPT.validate_code (sl "x")).2, false) :=
  ⟨C6_validation_policy.2.2 sampleValidCode (by decide),
   (C6_validation_policy.2.1 (sl "x") (by decide)).1,
   (C6_validation_policy.2.1 (sl "x") (by decide)).2,
   C6_validation_policy.1 (sl "x") (.runFn (.ok none))
     ⟨sl "Missing run(context) function definition", by decide, by decide⟩⟩

/-- Counterexample for C8: a fault raised from revolve code whose full trace
contains tangent but whose exception text does not.  The hint condition in
the code tests `str(e)`, not the trace, so the returned error string carries
the raw trace but no SUGGESTION hint, although the hypothesis of the claim
holds. -/
theorem C8_counterexample :
    containsSub (sl "tangent") (pyLower tangentTraceExn.trace) = true
    ∧ containsSub (sl "revolve") (pyLower sampleRevolveCode) = true
    ∧ containsSub tangentTraceExn.trace
        ((FusionGPT.execute_code sampleRevolveCode (.runFn (.error tangentTraceExn))).1) = true
    ∧ containsSub (sl "SUGGESTION")
        ((FusionGPT.execute_code sampleRevolveCode (.runFn (.error tangentTraceExn))).1)
        = false :=
  ⟨by decide, by decide, by decide, by decide⟩

/-- Amended claim C8: when the exception text (str(e), case-insensitively)
contains tangent and the submitted code contains revolve, the returned
error string is the raw message and full trace followed by the canned
tangent-axis remediation hint; in particular it contains the full trace. -/
theorem C8_amended_tangent_hint (code : List Char) (e : PyExn)
    (hv : (FusionGPT.validate_code code).1 = true)
    (hrev : containsSub (sl "revolve") (pyLower code) = true)
    (htan : containsSub (sl "tangent") (pyLower e.msg) = true) :
    (FusionGPT.execute_code code (.runFn (.error e))).1
      = sl "Error executing code: " ++ e.msg ++ sl "\n" ++ e.trace ++ FusionGPT.suggRevolve
    ∧ containsSub e.trace ((FusionGPT.execute_code code (.runFn (.error e))).1) = true := by
  have hmsg : FusionGPT.exec_error_message code e
      = sl "Error executing code: " ++ e.msg ++ sl "\n" ++ e.trace ++ FusionGPT.suggRevolve := by
    simp [FusionGPT.exec_error_message, hrev, htan]
  have hex : (FusionGPT.execute_code code (.runFn (.error e))).1
      = sl "Error executing code: " ++ e.msg ++ sl "\n" ++ e.trace ++ FusionGPT.suggRevolve := by
    simp [FusionGPT.execute_code, hv, hmsg]
  refine ⟨hex, ?_⟩
  rw [hex]
  exact containsSub_of_parts e.trace (sl "Error executing code: " ++ e.msg ++ sl "\n")
    FusionGPT.suggRevolve

/-- Witness for the amended C8 at a concrete revolve failure. -/
theorem C8_witness :
    (FusionGPT.execute_code sampleRevolveCode
        (.runFn (.error ⟨sl "axis is tangent to profile", sl "tb"⟩))).1
      = sl "Error executing code: " ++ sl "axis is tangent to profile" ++ sl "\n" ++ sl "tb"
        ++ FusionGPT.suggRevolve
    ∧ containsSub (sl "tb")
        ((FusionGPT.execute_code sampleRevolveCode
          (.runFn (.error ⟨sl "axis is tangent to profile", sl "tb"⟩))).1) = true :=
  C8_amended_tangent_hint sampleRevolveCode ⟨sl "axis is tangent to profile", sl "tb"⟩
    (by decide) (by decide) (by decide)

theorem add_to_history_head {α : Type} (it : α) (h : List α) :
    (FusionGPT.add_to_history it h).head? = some it := by
  simp only [FusionGPT.add_to_history]
  by_cases hc : FusionGPT.MAX_HISTORY_ITEMS < (it :: h).length
  · rw [if_pos hc]
    cases h with
    | nil => simp [FusionGPT.MAX_HISTORY_ITEMS] at hc
    | cons x t => rw [List.dropLast_cons₂]; rfl
  · rw [if_neg hc]; rfl

theorem add_to_history_bound {α : Type} (it : α) (h : List α)
    (hl : h.length ≤ FusionGPT.MAX_HISTORY_ITEMS) :
    (FusionGPT.add_to_history it h).length ≤ FusionGPT.MAX_HISTORY_ITEMS := by
  simp only [FusionGPT.add_to_history]
  by_cases hc : FusionGPT.MAX_HISTORY_ITEMS < (it :: h).length
  · rw [if_pos hc, List.length_dropLast]
    simp only [List.length_cons]
    omega
  · rw [if_neg hc]
    simp only [List.length_cons] at hc ⊢
    omega

theorem add_all_bound {α : Type} (items : List α) (h : List α)
    (hl : h.length ≤ FusionGPT.MAX_HISTORY_ITEMS) :
    (FusionGPT.add_all items h).length ≤ FusionGPT.MAX_HISTORY_ITEMS := by
  induction items generalizing h with
  | nil => exact hl
  | cons i t ih =>
    simp only [FusionGPT.add_all, List.foldl_cons]
    exact ih (FusionGPT.add_to_history i h) (add_to_history_bound i h hl)

/-- Claim C5: `add_to_history` prepends the item; an add on a buffer within
the bound keeps it within the bound; any sequence of adds starting from the
empty buffer stays within the bound; and inserting MAX+1 items into an
empty buffer leaves exactly the most recent MAX items in most-recent-first
order, the oldest evicted. -/
theorem C5_history_buffer :
    (∀ (α : Type) (it : α) (h : List α), (FusionGPT.add_to_history it h).head? = some it)
    ∧ (∀ (α : Type) (it : α) (h : List α), h.length ≤ FusionGPT.MAX_HISTORY_ITEMS →
        (FusionGPT.add_to_history it h).length ≤ FusionGPT.MAX_HISTORY_ITEMS)
    ∧ (∀ (α : Type) (items : List α),
        (FusionGPT.add_all items ([] : List α)).length ≤ FusionGPT.MAX_HISTORY_ITEMS)
    ∧ (∀ (α : Type) (items : List α), items.length = FusionGPT.MAX_HISTORY_ITEMS + 1 →
        FusionGPT.add_all items ([] : List α) = (items.drop 1).reverse
        ∧ (FusionGPT.add_all items ([] : List α)).length = FusionGPT.MAX_HISTORY_ITEMS) := by
  refine ⟨fun α => add_to_history_head, fun α => add_to_history_bound,
    fun α items => add_all_bound items [] (by simp), ?_⟩
  intro α items hlen
  simp only [FusionGPT.MAX_HISTORY_ITEMS] at hlen
  rcases items with _ | ⟨a, _ | ⟨b, _ | ⟨c, _ | ⟨d, _ | ⟨e, _ | ⟨f, rest⟩⟩⟩⟩⟩⟩
  · simp at hlen
  · simp at hlen
  · simp at hlen
  · simp at hlen
  · simp at hlen
  · simp at hlen
  · have hr0 : rest.length = 0 := by
      simp only [List.length_cons] at hlen
      omega
    have hr : rest = [] := List.length_eq_zero.mp hr0
    subst hr
    exact ⟨rfl, rfl⟩

/-- Witness for C5 on concrete numeric buffers. -/
theorem C5_witness :
    (FusionGPT.add_to_history 0 [1, 2, 3, 4, 5]).length ≤ FusionGPT.MAX_HISTORY_ITEMS
    ∧ FusionGPT.add_all [1, 2, 3, 4, 5, 6] ([] : List Nat) = [6, 5, 4, 3, 2] :=
  ⟨C5_history_buffer.2.1 Nat 0 [1, 2, 3, 4, 5] (by decide),
   (C5_history_buffer.2.2.2 Nat [1, 2, 3, 4, 5, 6] (by decide)).1⟩

/-- Claim C9: a message beginning with the execute-previous-code command
makes no model call; it executes the code supplied in the secondary field
when one is there, else the most recent history entry; with neither, it
returns the no-code message, executes nothing and leaves the state
unchanged. -/
theorem C9_execute_previous_code :
    ∀ (msg arg2 : List Char) (st : IncomingState)
      (client : List Char → Except PyExn ProviderReply)
      (execB : List Char → ModuleBehavior),
      (sl "execute the previous code").isPrefixOf (pyLower msg) = true →
      (FusionGPT.palette_incoming msg arg2 st client execB).model_calls = 0
      ∧ (∀ code : List Char, FusionGPT.extract_code arg2 = some code → code ≠ [] →
          (FusionGPT.palette_incoming msg arg2 st client execB).executed = [code]
          ∧ (FusionGPT.palette_incoming msg arg2 st client execB).returnData
            = sl "Execution Result:\n```\n"
              ++ (FusionGPT.execute_code code (execB code)).1 ++ sl "\n```")
      ∧ (∀ (h : List Char) (t : List (List Char)),
          FusionGPT.extract_code arg2 = none → st.recent_code_history = h :: t → h ≠ [] →
          (FusionGPT.palette_incoming msg arg2 st client execB).executed = [h]
          ∧ (FusionGPT.palette_incoming msg arg2 st client execB).returnData
            = sl "Execution Result:\n```\n"
              ++ (FusionGPT.execute_code h (execB h)).1 ++ sl "\n```")
      ∧ (FusionGPT.extract_code arg2 = none → st.recent_code_history = [] →
          (FusionGPT.palette_incoming msg arg2 st client execB).returnData = FusionGPT.noCodeMsg
          ∧ (FusionGPT.palette_incoming msg arg2 st client execB).executed = []
          ∧ (FusionGPT.palette_incoming msg arg2 st client execB).state = st) := by
  intro msg arg2 st client execB hpre
  refine ⟨?_, ?_, ?_, ?_⟩
  · simp only [FusionGPT.palette_incoming, hpre, if_true]
    split
    · rfl
    · split
      · rfl
      · rfl
  · intro code hext hne
    have hemp : code.isEmpty = false := by
      cases code with
      | nil => exact absurd rfl hne
      | cons a t => rfl
    constructor
    · simp [FusionGPT.palette_incoming, hpre, hext, pyTruthy, hemp]
    · simp [FusionGPT.palette_incoming, hpre, hext, pyTruthy, hemp]
  · intro h t hext hh hne
    have hemp : h.isEmpty = false := by
      cases h with
      | nil => exact absurd rfl hne
      | cons a s => rfl
    constructor
    · simp [FusionGPT.palette_incoming, hpre, hext, hh, pyTruthy, hemp]
    · simp [FusionGPT.palette_incoming, hpre, hext, hh, pyTruthy, hemp]
  · intro hext hh
    refine ⟨?_, ?_, ?_⟩
    · simp [FusionGPT.palette_incoming, hpre, hext, hh, pyTruthy]
    · simp [FusionGPT.palette_incoming, hpre, hext, hh, pyTruthy]
    · simp [FusionGPT.palette_incoming, hpre, hext, hh, pyTruthy]

/-- Witness for C9: the command with no supplied code executes the history
head without any model call. -/
theorem C9_witness :
    (FusionGPT.palette_incoming (sl "Execute the previous code now") (sl "")
        ⟨[sl "print(1)"], []⟩ (fun _ => Except.ok ⟨[]⟩)
        (fun _ => ModuleBehavior.noRunFn (Except.ok ()))).model_calls = 0
    ∧ (FusionGPT.palette_incoming (sl "Execute the previous code now") (sl "")
        ⟨[sl "print(1)"], []⟩ (fun _ => Except.ok ⟨[]⟩)
        (fun _ => ModuleBehavior.noRunFn (Except.ok ()))).executed = [sl "print(1)"] := by
  have h := C9_execute_previous_code (sl "Execute the previous code now") (sl "")
    ⟨[sl "print(1)"], []⟩ (fun _ => Except.ok ⟨[]⟩)
    (fun _ => ModuleBehavior.noRunFn (Except.ok ())) (by decide)
  exact ⟨h.1, (h.2.2.1 (sl "print(1)") [] (by decide) rfl (by decide)).1⟩

/-- Amended claim C1: the handler makes at most one model call per inbound
message — there is no automatic retry.  On an execution failure whose
result text carries the tangent and revolve keywords, it appends the canned
suggested-fix hint to the reply instead of re-invoking the model. -/
theorem C1_amended_no_auto_retry :
    (∀ (msg arg2 : List Char) (st : IncomingState)
        (client : List Char → Except PyExn ProviderReply)
        (execB : List Char → ModuleBehavior),
      (FusionGPT.palette_incoming msg arg2 st client execB).model_calls ≤ 1)
    ∧ (∀ (msg arg2 : List Char) (st : IncomingState)
        (client : List Char → Except PyExn ProviderReply)
        (execB : List Char → ModuleBehavior) (code : List Char),
      (sl "execute the previous code").isPrefixOf (pyLower msg) = false →
      FusionGPT.extract_code (FusionGPT.palette_response msg st client) = some code →
      code ≠ [] →
      containsSub (sl "don\x27t execute") (pyLower msg) = false →
      containsSub (sl "do not execute") (pyLower msg) = false →
      containsSub (sl "Error") ((FusionGPT.execute_code code (execB code)).1) = true →
      containsSub (sl "tangent") ((FusionGPT.execute_code code (execB code)).1) = true →
      containsSub (sl "revolve") ((FusionGPT.execute_code code (execB code)).1) = true →
      (FusionGPT.palette_incoming msg arg2 st client execB).model_calls = 1
      ∧ (FusionGPT.palette_incoming msg arg2 st client execB).returnData
          = FusionGPT.palette_response msg st client
            ++ sl "\n\n**Execution Result:**\n```\n"
            ++ (FusionGPT.execute_code code (execB code)).1 ++ sl "\n```"
            ++ FusionGPT.paletteFixTangent) := by
  constructor
  · intro msg arg2 st client execB
    simp only [FusionGPT.palette_incoming]
    split
    · split
      · simp
      · split
        · simp
        · simp
    · split
      · simp
      · simp
  · intro msg arg2 st client execB code hpre hext hne hd1 hd2 herr htan hrev
    have hemp : code.isEmpty = false := by
      cases code with
      | nil => exact absurd rfl hne
      | cons a t => rfl
    constructor
    · simp [FusionGPT.palette_incoming, hpre, hext, pyTruthy, hemp, hd1, hd2]
    · simp [FusionGPT.palette_incoming, hpre, hext, pyTruthy, hemp, hd1, hd2,
        herr, htan, hrev]

set_option maxRecDepth 400000 in
/-- Counterexample for C1: a concrete interaction whose execution fails
with a result text containing both tangent and revolve — the recognized
problematic-operation keywords — yet the handler makes exactly one model
call in total: no automatic follow-up model call is issued; the reply only
gains the canned suggested-fix hint. -/
theorem C1_counterexample :
    c1Outcome.model_calls = 1
    ∧ containsSub (sl "Error")
        ((FusionGPT.execute_code sampleRevolveCode (c1ExecB sampleRevolveCode)).1) = true
    ∧ containsSub (sl "tangent")
        ((FusionGPT.execute_code sampleRevolveCode (c1ExecB sampleRevolveCode)).1) = true
    ∧ containsSub (sl "revolve")
        ((FusionGPT.execute_code sampleRevolveCode (c1ExecB sampleRevolveCode)).1) = true
    ∧ containsSub FusionGPT.paletteFixTangent c1Outcome.returnData = true :=
  ⟨rfl, rfl, rfl, rfl, rfl⟩

set_option maxRecDepth 400000 in
/-- Witness for the amended C1 on the concrete retry scenario. -/
theorem C1_witness :
    (FusionGPT.palette_incoming (sl "hello") (sl "") ⟨[], []⟩ c1Client c1ExecB).model_calls = 1
    ∧ (FusionGPT.palette_incoming (sl "hello") (sl "") ⟨[], []⟩ c1Client c1ExecB).returnData
        = FusionGPT.palette_response (sl "hello") ⟨[], []⟩ c1Client
          ++ sl "\n\n**Execution Result:**\n```\n"
          ++ (FusionGPT.execute_code sampleRevolveCode (c1ExecB sampleRevolveCode)).1
          ++ sl "\n```" ++ FusionGPT.paletteFixTangent :=
  C1_amended_no_auto_retry.2 (sl "hello") (sl "") ⟨[], []⟩ c1Client c1ExecB
    sampleRevolveCode (by decide) rfl (by decide) (by decide) (by decide) rfl rfl rfl
